import Mathlib

/-!
Formal model of the order / invoice / webhook-reconciliation core of a
Telegram web-app crypto store (Express + PostgreSQL source).

The definitions are a shallow embedding of:
  - `src/database/db.js`          (userQueries, productQueries, orderQueries,
                                   invoiceQueries and the module exports),
  - the Plisio service            (`verifyWebhookSignature`, `processWebhook`,
                                   `mapPlisioStatus`),
  - the Express order route       (`POST /api/orders`),
  - the Express webhook route     (`POST /api/webhook/plisio`),
  - the bot's `notifyPaymentReceived`.

Database state is passed explicitly as a `DB` record of relations (lists of
rows).  SQL numerics (DECIMAL) are modelled as `Int`; timestamps as `Nat`
supplied by the caller; the HMAC-SHA1 keyed by the shared secret is an
abstract parameter `hmac : String → String`.  Each query function mirrors the
SQL statement it embeds; each route function mirrors the JavaScript control
flow, with a thrown exception modelled as the 500 response produced by the
route's catch block.
-/

namespace TelegramStore

/-- A row of the `users` table (only the columns the modelled paths read). -/
structure User where
  id : Nat
  telegram_id : Nat
deriving DecidableEq

/-- A row of the `products` table. -/
structure Product where
  id : Nat
  name : String
  description : String
  price_usd : Int
  image_url : String
  mega_link : String
  stock : Int
  is_active : Bool
deriving DecidableEq

/-- A row of the `orders` table.  `status` is one of the strings the code
writes: "pending" (default), "paid", "cancelled", "refunded". -/
structure Order where
  id : Nat
  user_id : Nat
  total_price : Int
  status : String
deriving DecidableEq

/-- A row of the `order_items` table. -/
structure OrderItem where
  order_id : Nat
  product_id : Nat
  quantity : Int
  price_per_item : Int
  total_price : Int
deriving DecidableEq

/-- A row of the `invoices` table. -/
structure Invoice where
  id : Nat
  order_id : Nat
  plisio_invoice_id : String
  currency : String
  amount : Int
  amount_usd : Int
  status : String
  invoice_url : String
  qr_code_url : String
  wallet_hash : String
  paid_at : Option Nat
  expires_at : Option Nat
deriving DecidableEq

/-- A row of the `purchased_products` table. -/
structure PurchasedProduct where
  user_id : Nat
  product_id : Nat
  order_id : Nat
deriving DecidableEq

/-- The whole database state, plus the list of payment notifications the bot
has sent (`notifications` records the order ids for which
`notifyPaymentReceived` reached `sendMessage`) and the serial counters. -/
structure DB where
  users : List User
  products : List Product
  orders : List Order
  order_items : List OrderItem
  invoices : List Invoice
  purchased_products : List PurchasedProduct
  notifications : List Nat
  next_order_id : Nat
  next_invoice_id : Nat
deriving DecidableEq

/-- `SELECT * FROM users WHERE telegram_id = $1` (first row). -/
def userQueries.findByTelegramId (db : DB) (telegramId : Nat) : Option User :=
  db.users.find? (fun u => u.telegram_id == telegramId)

/-- `SELECT * FROM products WHERE id = $1 AND is_active = true` (first row). -/
def productQueries.getById (db : DB) (id : Nat) : Option Product :=
  db.products.find? (fun p => p.id == id && p.is_active)

/-- The column values `productQueries.update` writes. -/
structure ProductUpdateData where
  name : String
  description : String
  price_usd : Int
  image_url : String
  stock : Int
deriving DecidableEq

/-- `UPDATE products SET name = $1, description = $2, price_usd = $3,
image_url = $4, stock = $5 WHERE id = $6 RETURNING *`.  Note the statement
touches only the `products` relation and writes `stock` unchecked; the
`mega_link` column is not in the SET list. -/
def productQueries.update (db : DB) (id : Nat) (d : ProductUpdateData) :
    Option Product × DB :=
  let ps := db.products.map (fun p =>
    if p.id == id then
      { p with name := d.name, description := d.description,
               price_usd := d.price_usd, image_url := d.image_url,
               stock := d.stock }
    else p)
  (ps.find? (fun p => p.id == id), { db with products := ps })

/-- The row mapping of `UPDATE products SET stock = stock - $1
WHERE id = $2 AND stock >= $1`. -/
def updateStockList (ps : List Product) (pid : Nat) (q : Int) : List Product :=
  ps.map (fun p =>
    if p.id == pid && q ≤ p.stock then { p with stock := p.stock - q } else p)

/-- `productQueries.updateStock`: the conditional decrement above; the
returned Bool is `result.rowCount > 0`. -/
def productQueries.updateStock (db : DB) (pid : Nat) (q : Int) : Bool × DB :=
  (db.products.any (fun p => p.id == pid && q ≤ p.stock),
   { db with products := updateStockList db.products pid q })

/-- An element of the `orderItems` array the order route builds and passes to
`orderQueries.create`. -/
structure NewOrderItem where
  product_id : Nat
  quantity : Int
  price_per_item : Int
  total_price : Int
deriving DecidableEq

/-- `orderQueries.create(userId, items, totalPrice)`: BEGIN; INSERT the order
row (status defaults to "pending"); INSERT one `order_items` row per item;
COMMIT.  The transaction has no failure mode in this pure model, so it always
commits; note that it contains no stock operation. -/
def orderQueries.create (db : DB) (userId : Nat) (items : List NewOrderItem)
    (totalPrice : Int) : Order × DB :=
  let order : Order :=
    { id := db.next_order_id, user_id := userId,
      total_price := totalPrice, status := "pending" }
  (order,
   { db with
      orders := db.orders ++ [order],
      order_items := db.order_items ++ items.map (fun it =>
        { order_id := order.id, product_id := it.product_id,
          quantity := it.quantity, price_per_item := it.price_per_item,
          total_price := it.total_price }),
      next_order_id := db.next_order_id + 1 })

/-- `UPDATE orders SET status = $1 WHERE id = $2 RETURNING *`
(unconditional). -/
def orderQueries.updateStatus (db : DB) (id : Nat) (status : String) : DB :=
  { db with orders := db.orders.map (fun o =>
      if o.id == id then { o with status := status } else o) }

/-- The shape of the row `orderQueries.getById` returns: `o.*` joined with the
owning user's `telegram_id` and the aggregated order items. -/
structure OrderWithItems where
  order : Order
  telegram_id : Nat
  items : List OrderItem
deriving DecidableEq

/-- `orderQueries.getById`: SELECT the order, INNER JOIN `users` (no row when
the owning user is missing), LEFT JOIN `order_items` aggregated into `items`.
The SQL `json_agg` over a LEFT JOIN with zero matching items yields a single
all-null element; this model returns `[]` for that case instead, so theorems
about the row-per-item paths carry an explicit nonemptiness hypothesis. -/
def orderQueries.getById (db : DB) (id : Nat) : Option OrderWithItems :=
  match db.orders.find? (fun o => o.id == id) with
  | none => none
  | some o =>
    match db.users.find? (fun u => u.id == o.user_id) with
    | none => none
    | some u =>
      some { order := o, telegram_id := u.telegram_id,
             items := db.order_items.filter (fun it => it.order_id == id) }

/-- The column values `invoiceQueries.create` receives from the order route. -/
structure NewInvoiceData where
  order_id : Nat
  plisio_invoice_id : String
  currency : String
  amount : Int
  amount_usd : Int
  invoice_url : String
  qr_code_url : String
  wallet_hash : String
  expires_at : Option Nat
deriving DecidableEq

/-- `invoiceQueries.create`: INSERT INTO invoices ... RETURNING *; `status`
defaults to "new" and `paid_at` to NULL. -/
def invoiceQueries.create (db : DB) (d : NewInvoiceData) : Invoice × DB :=
  let inv : Invoice :=
    { id := db.next_invoice_id, order_id := d.order_id,
      plisio_invoice_id := d.plisio_invoice_id, currency := d.currency,
      amount := d.amount, amount_usd := d.amount_usd, status := "new",
      invoice_url := d.invoice_url, qr_code_url := d.qr_code_url,
      wallet_hash := d.wallet_hash, paid_at := none,
      expires_at := d.expires_at }
  (inv, { db with invoices := db.invoices ++ [inv],
                  next_invoice_id := db.next_invoice_id + 1 })

/-- `UPDATE invoices SET status = $1, paid_at = $2 WHERE plisio_invoice_id =
$3 RETURNING *`.  The update is unconditional: it overwrites `status` and
`paid_at` whatever the current values are. -/
def invoiceQueries.updateStatus (db : DB) (plisioId : String) (status : String)
    (paidAt : Option Nat) : DB :=
  { db with invoices := db.invoices.map (fun i =>
      if i.plisio_invoice_id == plisioId then
        { i with status := status, paid_at := paidAt }
      else i) }

/-- `SELECT * FROM invoices WHERE plisio_invoice_id = $1` (first row). -/
def invoiceQueries.getByPlisioId (db : DB) (plisioId : String) :
    Option Invoice :=
  db.invoices.find? (fun i => i.plisio_invoice_id == plisioId)

/-- The binding `purchasedProductQueries` obtained by destructuring
`require('./database/db')` in the server and in the Telegram bot.
`module.exports` of `src/database/db.js` (lines 301-308) contains only
`pool`, `userQueries`, `productQueries`, `orderQueries`, `invoiceQueries`
and `statsQueries`, so the destructured binding is `undefined` (`none` here);
any member access such as `purchasedProductQueries.create(...)` throws a
TypeError at the call site. -/
def purchasedProductQueries : Option (DB → Nat → Nat → Nat → DB) := none

/-- `mapPlisioStatus` from the Plisio service: the external-to-internal
status map, defaulting to "unknown". -/
def mapPlisioStatus (s : String) : String :=
  if s == "new" then "pending"
  else if s == "pending" then "pending"
  else if s == "completed" then "paid"
  else if s == "expired" then "expired"
  else if s == "cancelled" then "cancelled"
  else if s == "error" then "failed"
  else "unknown"

/-- First value bound to a key of the webhook payload (a JS object, so keys
are unique in practice). -/
def lookupField (data : List (String × String)) (k : String) : Option String :=
  (data.find? (fun kv => kv.1 == k)).map (fun kv => kv.2)

/-- Code-unit comparison of two character lists, as JavaScript's default
`Array.prototype.sort` compares strings. -/
def charListLe : List Char → List Char → Bool
  | [], _ => true
  | _ :: _, [] => false
  | c :: cs, d :: ds =>
    if c.toNat < d.toNat then true
    else if d.toNat < c.toNat then false
    else charListLe cs ds

/-- String comparison used to sort the payload keys. -/
def strLe (a b : String) : Bool := charListLe a.data b.data

/-- Insertion step for sorting payload keys, as `Object.keys(data).sort()`
orders them. -/
def insertKey (x : String) : List String → List String
  | [] => [x]
  | y :: ys => if strLe x y then x :: y :: ys else y :: insertKey x ys

/-- Sort the payload keys lexicographically, as `Object.keys(data).sort()`. -/
def sortKeys : List String → List String
  | [] => []
  | x :: xs => insertKey x (sortKeys xs)

/-- The string the Plisio service signs: the payload's fields sorted by key,
excluding the `verify_hash` field itself, joined as `key=value&...`. -/
def sortedParamString (data : List (String × String)) : String :=
  let keys := (data.map (fun kv => kv.1)).filter (fun k => k ≠ "verify_hash")
  String.intercalate "&"
    ((sortKeys keys).map (fun k => k ++ "=" ++ ((lookupField data k).getD "undefined")))

/-- `verifyWebhookSignature(data, receivedSignature)`: recompute the
HMAC-SHA1 (abstracted as `hmac`, already keyed with the shared secret) of
`sortedParamString data` and compare with strict equality; a missing received
signature compares unequal to the hex digest.  The service's fallback branch
that skips verification when the secret key is unset is unreachable in the
running server, whose constructor throws without `PLISIO_SECRET_KEY`. -/
def verifyWebhookSignature (hmac : String → String)
    (data : List (String × String)) (received : Option String) : Bool :=
  match received with
  | none => false
  | some s => hmac (sortedParamString data) == s

/-- The fields of `processWebhook`'s result that the webhook route reads. -/
structure WebhookData where
  invoiceId : String
  status : String
  isPaid : Bool
deriving DecidableEq

/-- `processWebhook(webhookData)`: `invoiceId` is the raw `txn_id`, `status`
is the mapped status, and `isPaid` compares the raw (unmapped) status with
"completed".  The numeric fields of the result are never read by the route
and are omitted. -/
def processWebhook (data : List (String × String)) : WebhookData :=
  let raw := (lookupField data "status").getD "undefined"
  { invoiceId := (lookupField data "txn_id").getD "undefined",
    status := mapPlisioStatus raw,
    isPaid := raw == "completed" }

/-- `req.headers['x-plisio-signature'] || req.body.verify_hash`: the header
when present, else the payload's own `verify_hash` field. -/
def resolveSignature (body : List (String × String)) (sigHeader : Option String) :
    Option String :=
  match sigHeader with
  | some s => some s
  | none => lookupField body "verify_hash"

/-- `notifyPaymentReceived(orderId)` from the Telegram bot: load the order
with items, look the user up again by telegram id, insert one
`purchased_products` row per item via `purchasedProductQueries.create`, then
send the payment message.  The whole body is inside its own try/catch, so the
TypeError thrown by the member access on the undefined
`purchasedProductQueries` (whenever the item loop runs at least once) is
swallowed and no message is sent. -/
def notifyPaymentReceived (db : DB) (orderId : Nat) : DB :=
  match orderQueries.getById db orderId with
  | none => db
  | some ow =>
    match userQueries.findByTelegramId db ow.telegram_id with
    | none => db
    | some u =>
      match ow.items with
      | [] => { db with notifications := db.notifications ++ [orderId] }
      | _ :: _ =>
        match purchasedProductQueries with
        | none => db
        | some create =>
          let db2 := ow.items.foldl
            (fun d it => create d u.id it.product_id orderId) db
          { db2 with notifications := db2.notifications ++ [orderId] }

/-- An HTTP response of the webhook route: status code plus the database
state left behind. -/
structure WebhookResult where
  httpStatus : Nat
  db : DB
deriving DecidableEq

/-- `POST /api/webhook/plisio`: verify the signature (reject 401 before any
state is touched); resolve the invoice by the payload's `txn_id` (404 when
unknown); unconditionally update the invoice status; when the raw status is
"completed", mark the order paid, then loop the joined items calling
`purchasedProductQueries.create` — a member access on an undefined binding,
so the first iteration throws and the route's catch answers 500 with the
invoice and order updates already applied — then notify; 200 otherwise. -/
def plisioWebhookRoute (hmac : String → String) (now : Nat) (db : DB)
    (body : List (String × String)) (sigHeader : Option String) :
    WebhookResult :=
  if verifyWebhookSignature hmac body (resolveSignature body sigHeader) then
    let wd := processWebhook body
    match invoiceQueries.getByPlisioId db wd.invoiceId with
    | none => ⟨404, db⟩
    | some invoice =>
      let db1 := invoiceQueries.updateStatus db wd.invoiceId wd.status
        (if wd.isPaid then some now else none)
      if wd.isPaid then
        let db2 := orderQueries.updateStatus db1 invoice.order_id "paid"
        match orderQueries.getById db2 invoice.order_id with
        | some ow =>
          match ow.items with
          | [] => ⟨200, notifyPaymentReceived db2 invoice.order_id⟩
          | _ :: _ =>
            match purchasedProductQueries with
            | none => ⟨500, db2⟩
            | some create =>
              let db3 := ow.items.foldl
                (fun d it =>
                  create d ow.order.user_id it.product_id invoice.order_id) db2
              ⟨200, notifyPaymentReceived db3 invoice.order_id⟩
        | none => ⟨200, notifyPaymentReceived db2 invoice.order_id⟩
      else ⟨200, db1⟩
  else ⟨401, db⟩

/-- The body of `POST /api/orders`: the requesting user's telegram id and the
`{product_id, quantity}` items. -/
structure OrderRequest where
  telegram_id : Nat
  items : List (Nat × Int)
deriving DecidableEq

/-- The successful response of `plisio.createInvoice`, an outbound gateway
call made between order creation and invoice persistence; the route is
modelled on the gateway-success path, with the gateway's answer supplied as
this parameter. -/
structure PlisioInvoiceResponse where
  txn_id : String
  currency : String
  amount : Int
  invoice_url : String
  qr_code : String
  wallet_hash : String
deriving DecidableEq

/-- An HTTP response of the order route: status code plus the database state
left behind. -/
structure RouteResult where
  httpStatus : Nat
  db : DB
deriving DecidableEq

/-- The validation loop of the order route: for each requested item look up
the active product (unknown or inactive product aborts with 400), compare the
requested quantity against current stock (`product.stock < item.quantity`
aborts with 400), and accumulate the snapshotted order items and the running
total.  The loop only reads the database. -/
def validateItems (db : DB) : List (Nat × Int) → Option (List NewOrderItem × Int)
  | [] => some ([], 0)
  | (pid, q) :: rest =>
    match productQueries.getById db pid with
    | none => none
    | some p =>
      if p.stock < q then none
      else
        match validateItems db rest with
        | none => none
        | some (its, total) =>
          some ({ product_id := p.id, quantity := q,
                  price_per_item := p.price_usd,
                  total_price := p.price_usd * q } :: its,
                p.price_usd * q + total)

/-- `POST /api/orders`: reject empty input (JS falsiness of `telegram_id`
includes 0); find the user (404); validate all items (400, nothing
persisted); create the order and its items in their own transaption; call the
gateway and persist the invoice; then, after everything is committed, run the
per-item conditional stock decrements, ignoring each call's success flag. -/
def createOrderRoute (db : DB) (req : OrderRequest)
    (gw : PlisioInvoiceResponse) (expiresAt : Nat) : RouteResult :=
  if req.telegram_id == 0 || req.items.isEmpty then ⟨400, db⟩
  else
    match userQueries.findByTelegramId db req.telegram_id with
    | none => ⟨404, db⟩
    | some user =>
      match validateItems db req.items with
      | none => ⟨400, db⟩
      | some (orderItems, totalPrice) =>
        let (order, db1) := orderQueries.create db user.id orderItems totalPrice
        let (_invoice, db2) := invoiceQueries.create db1
          { order_id := order.id, plisio_invoice_id := gw.txn_id,
            currency := gw.currency, amount := gw.amount,
            amount_usd := totalPrice, invoice_url := gw.invoice_url,
            qr_code_url := gw.qr_code, wallet_hash := gw.wallet_hash,
            expires_at := some expiresAt }
        let db3 := orderItems.foldl
          (fun d it => (productQueries.updateStock d it.product_id it.quantity).2)
          db2
        ⟨201, db3⟩

/-- Stock of the first `products` row with the given id (0 when absent). -/
def stockOf (db : DB) (pid : Nat) : Int :=
  match db.products.find? (fun p => p.id == pid) with
  | some p => p.stock
  | none => 0

/-- A sequence of `productQueries.updateStock` reservations against one
product, as successive `createOrder` calls perform them. -/
def applyReserves (db : DB) (pid : Nat) : List Int → DB
  | [] => db
  | q :: qs => applyReserves (productQueries.updateStock db pid q).2 pid qs

/-! ## Concrete scenario used by the closed theorems and witnesses -/

/-- A registered user. -/
def demoUser : User := { id := 1, telegram_id := 111 }

/-- An active product with 5 units of stock at 100 per unit. -/
def demoProduct : Product :=
  { id := 1, name := "Course", description := "", price_usd := 100,
    image_url := "", mega_link := "", stock := 5, is_active := true }

/-- A pending order owned by the demo user. -/
def demoOrder : Order :=
  { id := 1, user_id := 1, total_price := 100, status := "pending" }

/-- The single item of the pending order. -/
def demoItem : OrderItem :=
  { order_id := 1, product_id := 1, quantity := 1, price_per_item := 100,
    total_price := 100 }

/-- The invoice provisioned for the pending order, still in state "new". -/
def demoInvoice : Invoice :=
  { id := 1, order_id := 1, plisio_invoice_id := "inv1", currency := "BTC",
    amount := 1, amount_usd := 100, status := "new", invoice_url := "",
    qr_code_url := "", wallet_hash := "", paid_at := none, expires_at := none }

/-- Database state holding the pending order and its fresh invoice. -/
def demoDb : DB :=
  { users := [demoUser], products := [demoProduct], orders := [demoOrder],
    order_items := [demoItem], invoices := [demoInvoice],
    purchased_products := [], notifications := [], next_order_id := 2,
    next_invoice_id := 2 }

/-- Database state before any order exists, used by the order-route runs. -/
def freshDb : DB :=
  { users := [demoUser], products := [demoProduct], orders := [],
    order_items := [], invoices := [], purchased_products := [],
    notifications := [], next_order_id := 1, next_invoice_id := 1 }

/-- A concrete stand-in for the keyed HMAC-SHA1, injective on the strings the
scenario signs. -/
def demoHmac (s : String) : String := "sig:" ++ s

/-- A gateway webhook payload reporting the demo invoice completed. -/
def completedBody : List (String × String) :=
  [("amount", "1"), ("status", "completed"), ("txn_id", "inv1")]

/-- The valid signature of `completedBody`. -/
def completedSig : String := demoHmac (sortedParamString completedBody)

/-- A gateway answer used when the order route provisions an invoice. -/
def demoGw : PlisioInvoiceResponse :=
  { txn_id := "inv2", currency := "BTC", amount := 1, invoice_url := "",
    qr_code := "", wallet_hash := "" }

/-! ## Helper lemmas -/

/-- The conditional stock decrement commutes with looking the product up by
id: the first row with the given id is decremented exactly when its stock
covers the quantity. -/
theorem find_updateStockList (ps : List Product) (pid : Nat) (q : Int) :
    (updateStockList ps pid q).find? (fun p => p.id == pid)
      = (ps.find? (fun p => p.id == pid)).map
          (fun p => if q ≤ p.stock then { p with stock := p.stock - q } else p) := by
  induction ps with
  | nil => rfl
  | cons p ps ih =>
    by_cases hid : p.id == pid
    · simp only [updateStockList, List.map_cons, List.find?_cons, hid]
      by_cases hs : q ≤ p.stock
      · simp [hid, hs]
      · simp [hid, hs]
    · simp only [updateStockList, List.map_cons, List.find?_cons, hid]
      simpa [updateStockList, hid] using ih

/-- Effect of one conditional reservation on the looked-up stock. -/
theorem stockOf_updateStock (db : DB) (pid : Nat) (q : Int) :
    stockOf (productQueries.updateStock db pid q).2 pid
      = match db.products.find? (fun p => p.id == pid) with
        | some p => if q ≤ p.stock then p.stock - q else p.stock
        | none => 0 := by
  simp only [stockOf, productQueries.updateStock, find_updateStockList]
  cases h : db.products.find? (fun p => p.id == pid) with
  | none => rfl
  | some p =>
    by_cases hs : q ≤ p.stock
    · simp [hs]
    · simp [hs]

/-- One conditional reservation keeps the looked-up stock non-negative. -/
theorem stockOf_updateStock_nonneg (db : DB) (pid : Nat) (q : Int)
    (h : 0 ≤ stockOf db pid) :
    0 ≤ stockOf (productQueries.updateStock db pid q).2 pid := by
  rw [stockOf_updateStock]
  unfold stockOf at h
  cases hf : db.products.find? (fun p => p.id == pid) with
  | none => simp
  | some p =>
    rw [hf] at h
    have h' : 0 ≤ p.stock := h
    show 0 ≤ if q ≤ p.stock then p.stock - q else p.stock
    by_cases hs : q ≤ p.stock
    · rw [if_pos hs]; exact sub_nonneg.mpr hs
    · rw [if_neg hs]; exact h'

/-- Any sequence of conditional reservations keeps the looked-up stock
non-negative. -/
theorem stockOf_applyReserves_nonneg (pid : Nat) (qs : List Int) :
    ∀ db : DB, 0 ≤ stockOf db pid → 0 ≤ stockOf (applyReserves db pid qs) pid := by
  induction qs with
  | nil => intro db h; exact h
  | cons q qs ih =>
    intro db h
    exact ih _ (stockOf_updateStock_nonneg db pid q h)

/-- The unconditional order-status update commutes with looking the order up
by id. -/
theorem find_orders_updateStatus (os : List Order) (id : Nat) (st : String) :
    ((os.map (fun o => if o.id == id then { o with status := st } else o)).find?
        (fun o => o.id == id))
      = (os.find? (fun o => o.id == id)).map (fun o => { o with status := st }) := by
  induction os with
  | nil => rfl
  | cons o os ih =>
    by_cases hid : o.id = id
    · simp [List.find?_cons, hid]
    · have hb : (o.id == id) = false := by simpa using hid
      simp only [List.map_cons, List.find?_cons, hb, Bool.false_eq_true,
        if_false]
      exact ih

/-- Evaluation of the webhook route on an authenticated "completed" payload
that resolves to a known invoice whose paid order (after the two status
updates) is joined with at least one item: the member access on the undefined
`purchasedProductQueries` throws, the route answers 500, and the state left
behind is exactly the one after the two unconditional status updates. -/
theorem completed_webhook_run (hmac : String → String) (now : Nat) (db : DB)
    (body : List (String × String)) (sigHeader : Option String)
    (inv : Invoice) (ow : OrderWithItems)
    (hsig : verifyWebhookSignature hmac body (resolveSignature body sigHeader) = true)
    (hstatus : lookupField body "status" = some "completed")
    (hinv : invoiceQueries.getByPlisioId db
      ((lookupField body "txn_id").getD "undefined") = some inv)
    (hord : orderQueries.getById
      (orderQueries.updateStatus
        (invoiceQueries.updateStatus db
          ((lookupField body "txn_id").getD "undefined") "paid" (some now))
        inv.order_id "paid") inv.order_id = some ow)
    (hitems : ow.items ≠ []) :
    plisioWebhookRoute hmac now db body sigHeader
      = ⟨500, orderQueries.updateStatus
          (invoiceQueries.updateStatus db
            ((lookupField body "txn_id").getD "undefined") "paid" (some now))
          inv.order_id "paid"⟩ := by
  have hpw : processWebhook body
      = { invoiceId := (lookupField body "txn_id").getD "undefined",
          status := "paid", isPaid := true } := by
    simp [processWebhook, hstatus, mapPlisioStatus]
  unfold plisioWebhookRoute
  rw [hsig, if_pos rfl, hpw]
  simp only
  rw [hinv]
  simp only [if_true, hord]
  cases hi : ow.items with
  | nil => exact absurd hi hitems
  | cons a l =>
    simp [purchasedProductQueries]

/-! ## Claim theorems -/

/-- C1: webhook idempotence fails in the code.  Delivering the authenticated
"completed" payload for the demo invoice — once, and again on the resulting
state — responds 500 both times, inserts no purchased-product grant row for
the order's item, and dispatches no payment notification, instead of the
claimed exactly-one grant per item and exactly-one dispatch. -/
theorem c1_completed_webhook_grants_nothing :
    (plisioWebhookRoute demoHmac 7 demoDb completedBody (some completedSig)).httpStatus = 500 ∧
    (plisioWebhookRoute demoHmac 7
        (plisioWebhookRoute demoHmac 7 demoDb completedBody (some completedSig)).db
        completedBody (some completedSig)).httpStatus = 500 ∧
    (plisioWebhookRoute demoHmac 7
        (plisioWebhookRoute demoHmac 7 demoDb completedBody (some completedSig)).db
        completedBody (some completedSig)).db.purchased_products = [] ∧
    (plisioWebhookRoute demoHmac 7
        (plisioWebhookRoute demoHmac 7 demoDb completedBody (some completedSig)).db
        completedBody (some completedSig)).db.notifications = [] := by
  decide

/-- C2 counterexample: the grant-creation step of reconciliation fails (the
member access on the undefined `purchasedProductQueries` throws), yet the
invoice update and the order update already performed are left persisted: the
demo order ends up "paid" with zero grant rows for its item — exactly the
partial transition the claim says can never be left behind. -/
theorem c2_partial_transition_persisted :
    (plisioWebhookRoute demoHmac 7 demoDb completedBody (some completedSig)).httpStatus = 500 ∧
    ((plisioWebhookRoute demoHmac 7 demoDb completedBody (some completedSig)).db.invoices.map
        Invoice.status) = ["paid"] ∧
    ((plisioWebhookRoute demoHmac 7 demoDb completedBody (some completedSig)).db.orders.map
        Order.status) = ["paid"] ∧
    (plisioWebhookRoute demoHmac 7 demoDb completedBody (some completedSig)).db.purchased_products
      = [] := by
  decide

/-- C2 amended: a failure in a step of reconciliation aborts only the
remaining steps — the route answers 500 (so the gateway may retry) and the
notification step is never reached — while the mutations already applied
persist: the invoice status update and the order's transition to "paid"
remain visible although the grants for its items are missing.  Reconciliation
runs outside any transaction, each statement committing independently. -/
theorem c2_failure_aborts_only_later_steps (hmac : String → String) (now : Nat)
    (db : DB) (body : List (String × String)) (sigHeader : Option String)
    (inv : Invoice) (ow : OrderWithItems)
    (hsig : verifyWebhookSignature hmac body (resolveSignature body sigHeader) = true)
    (hstatus : lookupField body "status" = some "completed")
    (hinv : invoiceQueries.getByPlisioId db
      ((lookupField body "txn_id").getD "undefined") = some inv)
    (hord : orderQueries.getById
      (orderQueries.updateStatus
        (invoiceQueries.updateStatus db
          ((lookupField body "txn_id").getD "undefined") "paid" (some now))
        inv.order_id "paid") inv.order_id = some ow)
    (hitems : ow.items ≠ []) :
    (plisioWebhookRoute hmac now db body sigHeader).httpStatus = 500 ∧
    (plisioWebhookRoute hmac now db body sigHeader).db.notifications = db.notifications ∧
    (plisioWebhookRoute hmac now db body sigHeader).db.purchased_products
      = db.purchased_products ∧
    (plisioWebhookRoute hmac now db body sigHeader).db.invoices
      = (invoiceQueries.updateStatus db
          ((lookupField body "txn_id").getD "undefined") "paid" (some now)).invoices ∧
    ((plisioWebhookRoute hmac now db body sigHeader).db.orders.find?
        (fun o => o.id == inv.order_id)).map Order.status = some "paid" := by
  rw [completed_webhook_run hmac now db body sigHeader inv ow hsig hstatus hinv hord hitems]
  refine ⟨rfl, rfl, rfl, rfl, ?_⟩
  simp only [orderQueries.updateStatus, invoiceQueries.updateStatus,
    find_orders_updateStatus]
  unfold orderQueries.getById at hord
  cases hfo : (invoiceQueries.updateStatus db
      ((lookupField body "txn_id").getD "undefined") "paid"
      (some now)).orders.find? (fun o => o.id == inv.order_id) with
  | none =>
    rw [show (invoiceQueries.updateStatus db
        ((lookupField body "txn_id").getD "undefined") "paid"
        (some now)).orders = db.orders from rfl] at hfo
    rw [show (orderQueries.updateStatus
        (invoiceQueries.updateStatus db
          ((lookupField body "txn_id").getD "undefined") "paid" (some now))
        inv.order_id "paid").orders.find? (fun o => o.id == inv.order_id)
      = ((invoiceQueries.updateStatus db
          ((lookupField body "txn_id").getD "undefined") "paid"
          (some now)).orders.find? (fun o => o.id == inv.order_id)).map
          (fun o => { o with status := "paid" }) from
      find_orders_updateStatus _ _ _] at hord
    rw [show (invoiceQueries.updateStatus db
        ((lookupField body "txn_id").getD "undefined") "paid"
        (some now)).orders = db.orders from rfl] at hord
    rw [hfo] at hord
    simp at hord
  | some o =>
    rw [show (invoiceQueries.updateStatus db
        ((lookupField body "txn_id").getD "undefined") "paid"
        (some now)).orders = db.orders from rfl] at hfo
    rw [hfo]
    rfl

/-- The joined row `orderQueries.getById` returns for the demo order after
the webhook's two status updates. -/
def demoPaidOrderRow : OrderWithItems :=
  { order := { id := 1, user_id := 1, total_price := 100, status := "paid" },
    telegram_id := 111, items := [demoItem] }

/-- C2 witness: the hypotheses of `c2_failure_aborts_only_later_steps` hold
at the demo scenario and the theorem applies there. -/
theorem c2_witness :
    verifyWebhookSignature demoHmac completedBody
      (resolveSignature completedBody (some completedSig)) = true ∧
    lookupField completedBody "status" = some "completed" ∧
    invoiceQueries.getByPlisioId demoDb
      ((lookupField completedBody "txn_id").getD "undefined") = some demoInvoice ∧
    orderQueries.getById
      (orderQueries.updateStatus
        (invoiceQueries.updateStatus demoDb
          ((lookupField completedBody "txn_id").getD "undefined") "paid" (some 7))
        demoInvoice.order_id "paid") demoInvoice.order_id = some demoPaidOrderRow ∧
    demoPaidOrderRow.items ≠ [] ∧
    ((plisioWebhookRoute demoHmac 7 demoDb completedBody (some completedSig)).httpStatus = 500 ∧
     (plisioWebhookRoute demoHmac 7 demoDb completedBody (some completedSig)).db.notifications
       = demoDb.notifications ∧
     (plisioWebhookRoute demoHmac 7 demoDb completedBody (some completedSig)).db.purchased_products
       = demoDb.purchased_products ∧
     (plisioWebhookRoute demoHmac 7 demoDb completedBody (some completedSig)).db.invoices
       = (invoiceQueries.updateStatus demoDb
           ((lookupField completedBody "txn_id").getD "undefined") "paid" (some 7)).invoices ∧
     ((plisioWebhookRoute demoHmac 7 demoDb completedBody (some completedSig)).db.orders.find?
         (fun o => o.id == demoInvoice.order_id)).map Order.status = some "paid") :=
  ⟨by decide, by decide, by decide, by decide, by decide,
   c2_failure_aborts_only_later_steps demoHmac 7 demoDb completedBody
     (some completedSig) demoInvoice demoPaidOrderRow
     (by decide) (by decide) (by decide) (by decide) (by decide)⟩

/-- C3: every webhook execution that reaches the fulfillment step — an
authenticated payload with raw status "completed" resolving to a known
invoice whose paid order joins with at least one item — throws at the call
`purchasedProductQueries.create` (the database module exports no such
object), so the route responds 500 with the invoice status update and the
order "paid" update already applied, and no `purchased_products` row is ever
inserted by the webhook path. -/
theorem c3_fulfillment_step_throws (hmac : String → String) (now : Nat)
    (db : DB) (body : List (String × String)) (sigHeader : Option String)
    (inv : Invoice) (ow : OrderWithItems)
    (hsig : verifyWebhookSignature hmac body (resolveSignature body sigHeader) = true)
    (hstatus : lookupField body "status" = some "completed")
    (hinv : invoiceQueries.getByPlisioId db
      ((lookupField body "txn_id").getD "undefined") = some inv)
    (hord : orderQueries.getById
      (orderQueries.updateStatus
        (invoiceQueries.updateStatus db
          ((lookupField body "txn_id").getD "undefined") "paid" (some now))
        inv.order_id "paid") inv.order_id = some ow)
    (hitems : ow.items ≠ []) :
    (plisioWebhookRoute hmac now db body sigHeader).httpStatus = 500 ∧
    (plisioWebhookRoute hmac now db body sigHeader).db
      = orderQueries.updateStatus
          (invoiceQueries.updateStatus db
            ((lookupField body "txn_id").getD "undefined") "paid" (some now))
          inv.order_id "paid" ∧
    (plisioWebhookRoute hmac now db body sigHeader).db.purchased_products
      = db.purchased_products := by
  rw [completed_webhook_run hmac now db body sigHeader inv ow hsig hstatus hinv hord hitems]
  exact ⟨rfl, rfl, rfl⟩

/-- C3 witness: the hypotheses of `c3_fulfillment_step_throws` hold at the
demo scenario and the theorem applies there. -/
theorem c3_witness :
    verifyWebhookSignature demoHmac completedBody
      (resolveSignature completedBody (some completedSig)) = true ∧
    lookupField completedBody "status" = some "completed" ∧
    invoiceQueries.getByPlisioId demoDb
      ((lookupField completedBody "txn_id").getD "undefined") = some demoInvoice ∧
    orderQueries.getById
      (orderQueries.updateStatus
        (invoiceQueries.updateStatus demoDb
          ((lookupField completedBody "txn_id").getD "undefined") "paid" (some 7))
        demoInvoice.order_id "paid") demoInvoice.order_id = some demoPaidOrderRow ∧
    demoPaidOrderRow.items ≠ [] ∧
    ((plisioWebhookRoute demoHmac 7 demoDb completedBody (some completedSig)).httpStatus = 500 ∧
     (plisioWebhookRoute demoHmac 7 demoDb completedBody (some completedSig)).db
       = orderQueries.updateStatus
           (invoiceQueries.updateStatus demoDb
             ((lookupField completedBody "txn_id").getD "undefined") "paid" (some 7))
           demoInvoice.order_id "paid" ∧
     (plisioWebhookRoute demoHmac 7 demoDb completedBody (some completedSig)).db.purchased_products
       = demoDb.purchased_products) :=
  ⟨by decide, by decide, by decide, by decide, by decide,
   c3_fulfillment_step_throws demoHmac 7 demoDb completedBody
     (some completedSig) demoInvoice demoPaidOrderRow
     (by decide) (by decide) (by decide) (by decide) (by decide)⟩

/-- The demo invoice after a terminal "completed" transition. -/
def completedInvoice : Invoice :=
  { demoInvoice with status := "completed", paid_at := some 5 }

/-- Database state in which the demo invoice is already completed. -/
def completedDb : DB := { demoDb with invoices := [completedInvoice] }

/-- A later authenticated webhook reporting the same invoice expired. -/
def expiredBody : List (String × String) :=
  [("amount", "1"), ("status", "expired"), ("txn_id", "inv1")]

/-- The valid signature of `expiredBody`. -/
def expiredSig : String := demoHmac (sortedParamString expiredBody)

/-- C4 counterexample: the reconciler's invoice update is not a forward-only
conditional update.  Starting from a terminal "completed" invoice (with a
paid timestamp), an authenticated webhook with status "expired" is accepted
(200) and regresses the invoice to "expired", erasing `paid_at`. -/
theorem c4_completed_invoice_regressed :
    completedDb.invoices.map Invoice.status = ["completed"] ∧
    (plisioWebhookRoute demoHmac 9 completedDb expiredBody (some expiredSig)).httpStatus = 200 ∧
    ((plisioWebhookRoute demoHmac 9 completedDb expiredBody (some expiredSig)).db.invoices.map
        Invoice.status) = ["expired"] ∧
    ((plisioWebhookRoute demoHmac 9 completedDb expiredBody (some expiredSig)).db.invoices.map
        Invoice.paid_at) = [none] := by
  decide

/-- C4 amended: the reconciler updates the invoice via an unconditional
overwrite.  For any authenticated payload whose raw status is not
"completed" and whose `txn_id` resolves to a known invoice, the route
answers 200 (a redelivered or regressing update is absorbed without an
application error) and the invoice's status becomes the mapped payload
status and its paid timestamp becomes NULL — whatever the invoice's current
status, including a terminal "completed". -/
theorem c4_status_update_unconditional (hmac : String → String) (now : Nat)
    (db : DB) (body : List (String × String)) (sigHeader : Option String)
    (inv : Invoice)
    (hsig : verifyWebhookSignature hmac body (resolveSignature body sigHeader) = true)
    (hnc : (((lookupField body "status").getD "undefined") == "completed") = false)
    (hinv : invoiceQueries.getByPlisioId db
      ((lookupField body "txn_id").getD "undefined") = some inv) :
    plisioWebhookRoute hmac now db body sigHeader
      = ⟨200, invoiceQueries.updateStatus db
            ((lookupField body "txn_id").getD "undefined")
            (mapPlisioStatus ((lookupField body "status").getD "undefined"))
            none⟩ := by
  have hpw : processWebhook body
      = { invoiceId := (lookupField body "txn_id").getD "undefined",
          status := mapPlisioStatus ((lookupField body "status").getD "undefined"),
          isPaid := false } := by
    simp [processWebhook, hnc]
  unfold plisioWebhookRoute
  rw [hsig, if_pos rfl, hpw]
  simp only
  rw [hinv]
  simp

/-- C4 witness: the hypotheses of `c4_status_update_unconditional` hold for
the expired-after-completed delivery and the theorem applies there. -/
theorem c4_witness :
    verifyWebhookSignature demoHmac expiredBody
      (resolveSignature expiredBody (some expiredSig)) = true ∧
    (((lookupField expiredBody "status").getD "undefined") == "completed") = false ∧
    invoiceQueries.getByPlisioId completedDb
      ((lookupField expiredBody "txn_id").getD "undefined") = some completedInvoice ∧
    plisioWebhookRoute demoHmac 9 completedDb expiredBody (some expiredSig)
      = ⟨200, invoiceQueries.updateStatus completedDb
            ((lookupField expiredBody "txn_id").getD "undefined")
            (mapPlisioStatus ((lookupField expiredBody "status").getD "undefined"))
            none⟩ :=
  ⟨by decide, by decide, by decide,
   c4_status_update_unconditional demoHmac 9 completedDb expiredBody
     (some expiredSig) completedInvoice (by decide) (by decide) (by decide)⟩

/-- C5: signature integrity.  For any payload whose recomputed HMAC-SHA1
over the fields sorted by key, joined as key=value&... and excluding the
signature field (`sortedParamString`) differs from the signature that was
computed for the original payload — in particular any single-field
alteration that changes the HMAC — the route rejects with 401 and the
database is left exactly as it was: no invoice or order state is mutated. -/
theorem c5_signature_mismatch_rejected (hmac : String → String) (now : Nat)
    (db : DB) (orig altered : List (String × String))
    (hne : hmac (sortedParamString altered) ≠ hmac (sortedParamString orig)) :
    plisioWebhookRoute hmac now db altered
      (some (hmac (sortedParamString orig))) = ⟨401, db⟩ := by
  have hv : verifyWebhookSignature hmac altered
      (resolveSignature altered (some (hmac (sortedParamString orig)))) = false := by
    simp only [verifyWebhookSignature, resolveSignature, beq_eq_false_iff_ne, ne_eq]
    exact hne
  unfold plisioWebhookRoute
  rw [hv]
  simp

/-- The completed payload with its `amount` field altered and every other
field, including the signature that will accompany it, left unchanged. -/
def alteredBody : List (String × String) :=
  [("amount", "999"), ("status", "completed"), ("txn_id", "inv1")]

/-- C5 witness: altering the `amount` field changes the HMAC, and the
theorem applies: presenting the altered payload with the original signature
is rejected with 401 and an unchanged database. -/
theorem c5_witness :
    demoHmac (sortedParamString alteredBody) ≠ demoHmac (sortedParamString completedBody) ∧
    plisioWebhookRoute demoHmac 7 demoDb alteredBody
      (some (demoHmac (sortedParamString completedBody))) = ⟨401, demoDb⟩ :=
  ⟨by decide,
   c5_signature_mismatch_rejected demoHmac 7 demoDb completedBody alteredBody (by decide)⟩

/-- Each trailing stock update of the order route only rewrites the
`products` relation, so the whole per-item loop is the list-level fold of
the conditional decrements. -/
theorem foldl_updateStock_eq (items : List NewOrderItem) :
    ∀ d : DB,
      items.foldl (fun d it =>
          (productQueries.updateStock d it.product_id it.quantity).2) d
        = { d with products := (items.foldl (fun ps it => updateStockList ps it.product_id it.quantity) d.products) } := by
  induction items with
  | nil => intro d; rfl
  | cons it its ih =>
    intro d
    simp only [List.foldl_cons]
    rw [ih]
    rfl

/-- Evaluation of the order route when every validation passes: the response
is 201 and the final state appends the order row, its items and the invoice
row, and then applies the per-item conditional stock decrements — whose
success flags the route discards. -/
theorem createOrder_success_run (db : DB) (req : OrderRequest)
    (gw : PlisioInvoiceResponse) (expiresAt : Nat) (user : User)
    (orderItems : List NewOrderItem) (totalPrice : Int)
    (htid : (req.telegram_id == 0) = false)
    (hne : req.items.isEmpty = false)
    (huser : userQueries.findByTelegramId db req.telegram_id = some user)
    (hval : validateItems db req.items = some (orderItems, totalPrice)) :
    createOrderRoute db req gw expiresAt
      = ⟨201, { db with
          orders := db.orders ++
            [{ id := db.next_order_id, user_id := user.id,
               total_price := totalPrice, status := "pending" }],
          order_items := db.order_items ++ orderItems.map (fun it =>
            { order_id := db.next_order_id, product_id := it.product_id,
              quantity := it.quantity, price_per_item := it.price_per_item,
              total_price := it.total_price }),
          invoices := db.invoices ++
            [{ id := db.next_invoice_id, order_id := db.next_order_id,
               plisio_invoice_id := gw.txn_id, currency := gw.currency,
               amount := gw.amount, amount_usd := totalPrice,
               status := "new", invoice_url := gw.invoice_url,
               qr_code_url := gw.qr_code, wallet_hash := gw.wallet_hash,
               paid_at := none, expires_at := some expiresAt }],
          products := orderItems.foldl
            (fun ps it => updateStockList ps it.product_id it.quantity)
            db.products,
          next_order_id := db.next_order_id + 1,
          next_invoice_id := db.next_invoice_id + 1 }⟩ := by
  unfold createOrderRoute
  rw [htid, hne]
  simp only [Bool.or_self, Bool.false_eq_true, if_false]
  rw [huser, hval]
  simp only [orderQueries.create, invoiceQueries.create]
  rw [foldl_updateStock_eq]

/-- C6 counterexample: an order for two lines of three units each of the
demo product (stock 5) passes validation, commits the order and both items,
creates the invoice, and only then runs the reservations: the first
decrements stock to 2, the second fails (2 < 3) and its failure is ignored —
the route still answers 201 and the order, both items and the partial
decrement persist, instead of the claimed all-or-nothing abort. -/
theorem c6_order_persists_despite_failed_reservation :
    (createOrderRoute freshDb { telegram_id := 111, items := [(1, 3), (1, 3)] }
        demoGw 99).httpStatus = 201 ∧
    (createOrderRoute freshDb { telegram_id := 111, items := [(1, 3), (1, 3)] }
        demoGw 99).db.orders
      = [{ id := 1, user_id := 1, total_price := 600, status := "pending" }] ∧
    ((createOrderRoute freshDb { telegram_id := 111, items := [(1, 3), (1, 3)] }
        demoGw 99).db.order_items.map OrderItem.quantity) = [3, 3] ∧
    (productQueries.updateStock
        { freshDb with products := updateStockList freshDb.products 1 3 } 1 3).1
      = false ∧
    stockOf (createOrderRoute freshDb
        { telegram_id := 111, items := [(1, 3), (1, 3)] } demoGw 99).db 1 = 2 := by
  decide

/-- C6 amended: stock reservation does not run inside the order-creation
transaction.  Whenever validation passes, the order row and all order-item
rows are committed and the invoice is created unconditionally; the per-item
conditional stock decrements are applied afterwards as independent updates
whose failures are ignored, so a failed reservation aborts nothing and
already-applied decrements persist. -/
theorem c6_reservation_after_commit (db : DB) (req : OrderRequest)
    (gw : PlisioInvoiceResponse) (expiresAt : Nat) (user : User)
    (orderItems : List NewOrderItem) (totalPrice : Int)
    (htid : (req.telegram_id == 0) = false)
    (hne : req.items.isEmpty = false)
    (huser : userQueries.findByTelegramId db req.telegram_id = some user)
    (hval : validateItems db req.items = some (orderItems, totalPrice)) :
    (createOrderRoute db req gw expiresAt).httpStatus = 201 ∧
    (createOrderRoute db req gw expiresAt).db.orders
      = db.orders ++
        [{ id := db.next_order_id, user_id := user.id,
           total_price := totalPrice, status := "pending" }] ∧
    (createOrderRoute db req gw expiresAt).db.order_items
      = db.order_items ++ orderItems.map (fun it =>
          { order_id := db.next_order_id, product_id := it.product_id,
            quantity := it.quantity, price_per_item := it.price_per_item,
            total_price := it.total_price }) ∧
    (createOrderRoute db req gw expiresAt).db.products
      = orderItems.foldl
          (fun ps it => updateStockList ps it.product_id it.quantity)
          db.products := by
  rw [createOrder_success_run db req gw expiresAt user orderItems totalPrice
    htid hne huser hval]
  exact ⟨rfl, rfl, rfl, rfl⟩

/-- C6 witness: the hypotheses of `c6_reservation_after_commit` hold for the
double-line order on the fresh database and the theorem applies there. -/
theorem c6_witness :
    (((111 : Nat) == 0) = false) ∧
    (([(1, 3), (1, 3)] : List (Nat × Int)).isEmpty = false) ∧
    userQueries.findByTelegramId freshDb 111 = some demoUser ∧
    validateItems freshDb [(1, 3), (1, 3)]
      = some ([{ product_id := 1, quantity := 3, price_per_item := 100,
                 total_price := 300 },
               { product_id := 1, quantity := 3, price_per_item := 100,
                 total_price := 300 }], 600) ∧
    ((createOrderRoute freshDb { telegram_id := 111, items := [(1, 3), (1, 3)] }
        demoGw 99).httpStatus = 201 ∧
     (createOrderRoute freshDb { telegram_id := 111, items := [(1, 3), (1, 3)] }
        demoGw 99).db.orders
       = freshDb.orders ++
         [{ id := freshDb.next_order_id, user_id := demoUser.id,
            total_price := 600, status := "pending" }] ∧
     (createOrderRoute freshDb { telegram_id := 111, items := [(1, 3), (1, 3)] }
        demoGw 99).db.order_items
       = freshDb.order_items ++
         ([{ product_id := 1, quantity := 3, price_per_item := 100,
             total_price := 300 },
           { product_id := 1, quantity := 3, price_per_item := 100,
             total_price := 300 }] : List NewOrderItem).map (fun it =>
           { order_id := freshDb.next_order_id, product_id := it.product_id,
             quantity := it.quantity, price_per_item := it.price_per_item,
             total_price := it.total_price }) ∧
     (createOrderRoute freshDb { telegram_id := 111, items := [(1, 3), (1, 3)] }
        demoGw 99).db.products
       = ([{ product_id := 1, quantity := 3, price_per_item := 100,
             total_price := 300 },
           { product_id := 1, quantity := 3, price_per_item := 100,
             total_price := 300 }] : List NewOrderItem).foldl
           (fun ps it => updateStockList ps it.product_id it.quantity)
           freshDb.products) :=
  ⟨by decide, by decide, by decide, by decide,
   c6_reservation_after_commit freshDb
     { telegram_id := 111, items := [(1, 3), (1, 3)] } demoGw 99 demoUser
     [{ product_id := 1, quantity := 3, price_per_item := 100,
        total_price := 300 },
      { product_id := 1, quantity := 3, price_per_item := 100,
        total_price := 300 }] 600
     (by decide) (by decide) (by decide) (by decide)⟩

/-- Admin data writing a negative stock value for the demo product. -/
def negativeStockData : ProductUpdateData :=
  { name := "Course", description := "", price_usd := 100, image_url := "",
    stock := -1 }

/-- C7 counterexample: the claim extends `stock >= 0` to every operation of
the system including administrative product updates, but
`productQueries.update` writes the supplied stock value unchecked: updating
the demo product (stock 5) with stock -1 leaves its stock at -1. -/
theorem c7_admin_update_negative_stock :
    stockOf demoDb 1 = 5 ∧
    stockOf (productQueries.update demoDb 1 negativeStockData).2 1 = -1 ∧
    ¬ 0 ≤ stockOf (productQueries.update demoDb 1 negativeStockData).2 1 := by
  decide

/-- C7 amended: the reservation path does satisfy the invariant — the
conditional decrement `updateStock` fires only when the stock covers the
quantity, so across any sequence of reservations against a product whose
stock starts non-negative, the stock stays non-negative and the total
quantity actually debited (initial minus final stock) never exceeds the
initial stock.  Administrative updates, by contrast, can write any value
(see the counterexample). -/
theorem c7_reserve_no_oversell (db : DB) (pid : Nat) (qs : List Int)
    (h : 0 ≤ stockOf db pid) :
    0 ≤ stockOf (applyReserves db pid qs) pid ∧
    stockOf db pid - stockOf (applyReserves db pid qs) pid ≤ stockOf db pid := by
  have hn := stockOf_applyReserves_nonneg pid qs db h
  exact ⟨hn, sub_le_self _ hn⟩

/-- C7 witness: the hypothesis of `c7_reserve_no_oversell` holds for the
demo product and the theorem applies to the reservation sequence [3, 3]. -/
theorem c7_witness :
    0 ≤ stockOf demoDb 1 ∧
    (0 ≤ stockOf (applyReserves demoDb 1 [3, 3]) 1 ∧
     stockOf demoDb 1 - stockOf (applyReserves demoDb 1 [3, 3]) 1 ≤ stockOf demoDb 1) :=
  ⟨by decide, c7_reserve_no_oversell demoDb 1 [3, 3] (by decide)⟩

/-- When some requested item has no active product row, the validation loop
fails before anything is written. -/
theorem validateItems_none (db : DB) :
    ∀ items : List (Nat × Int),
      (∃ x ∈ items, productQueries.getById db x.1 = none) →
      validateItems db items = none := by
  intro items
  induction items with
  | nil =>
    intro h
    simp at h
  | cons x rest ih =>
    intro h
    obtain ⟨pid, q⟩ := x
    obtain ⟨y, hy, hnone⟩ := h
    rcases List.mem_cons.mp hy with heq | hmem
    · subst heq
      unfold validateItems
      rw [hnone]
    · unfold validateItems
      rw [ih ⟨y, hmem, hnone⟩]
      cases productQueries.getById db pid with
      | none => rfl
      | some p =>
        by_cases hs : p.stock < q
        · simp [hs]
        · simp [hs]

/-- C8: atomic rejection of invalid items.  Any order request containing at
least one item whose product id is unknown or inactive leaves the database
exactly as it was — no order row, no order-item rows, no invoice, no stock
change — and does not answer 201. -/
theorem c8_invalid_item_rejected_atomically (db : DB) (req : OrderRequest)
    (gw : PlisioInvoiceResponse) (expiresAt : Nat)
    (h : ∃ x ∈ req.items, productQueries.getById db x.1 = none) :
    (createOrderRoute db req gw expiresAt).db = db ∧
    (createOrderRoute db req gw expiresAt).httpStatus ≠ 201 := by
  unfold createOrderRoute
  by_cases h0 : (req.telegram_id == 0 || req.items.isEmpty) = true
  · rw [if_pos h0]
    exact ⟨rfl, by simp⟩
  · rw [if_neg h0]
    cases hu : userQueries.findByTelegramId db req.telegram_id with
    | none => exact ⟨rfl, by simp⟩
    | some user =>
      rw [validateItems_none db req.items h]
      exact ⟨rfl, by simp⟩

/-- C8 witness: the request mixes the known product 1 with the unknown
product 2; the hypothesis holds and the theorem applies. -/
theorem c8_witness :
    (∃ x ∈ ([(1, 1), (2, 1)] : List (Nat × Int)),
      productQueries.getById demoDb x.1 = none) ∧
    ((createOrderRoute demoDb { telegram_id := 111, items := [(1, 1), (2, 1)] }
        demoGw 99).db = demoDb ∧
     (createOrderRoute demoDb { telegram_id := 111, items := [(1, 1), (2, 1)] }
        demoGw 99).httpStatus ≠ 201) :=
  ⟨by decide,
   c8_invalid_item_rejected_atomically demoDb
     { telegram_id := 111, items := [(1, 1), (2, 1)] } demoGw 99 (by decide)⟩

/-- C9: price snapshot.  `productQueries.update` touches only the `products`
relation, so updating a product's price (or any other field) after an order
was created leaves the `orders` relation — and with it every committed
order's `total_price` — and the `order_items` relation — and with it every
captured `price_per_item` and line `total_price` — unchanged; order items
are never recomputed from current product data. -/
theorem c9_product_update_preserves_orders (db : DB) (id : Nat)
    (d : ProductUpdateData) :
    (productQueries.update db id d).2.orders = db.orders ∧
    (productQueries.update db id d).2.order_items = db.order_items :=
  ⟨rfl, rfl⟩

/-- C10 counterexample: the order route performs no quantity validation.  A
request for quantity 0 of the demo product (stock 5) passes the stock
pre-check (`stock < quantity` is false), answers 201 and persists an
order-item row with quantity 0; a request for quantity -3 likewise answers
201, persists an order with negative total -300, and the trailing stock
"decrement" adds 3 units, raising stock from 5 to 8. -/
theorem c10_zero_quantity_accepted :
    (createOrderRoute freshDb { telegram_id := 111, items := [(1, 0)] }
        demoGw 99).httpStatus = 201 ∧
    (createOrderRoute freshDb { telegram_id := 111, items := [(1, 0)] }
        demoGw 99).db.order_items
      = [{ order_id := 1, product_id := 1, quantity := 0,
           price_per_item := 100, total_price := 0 }] ∧
    (createOrderRoute freshDb { telegram_id := 111, items := [(1, -3)] }
        demoGw 99).httpStatus = 201 ∧
    ((createOrderRoute freshDb { telegram_id := 111, items := [(1, -3)] }
        demoGw 99).db.orders.map Order.total_price) = [-300] ∧
    stockOf (createOrderRoute freshDb { telegram_id := 111, items := [(1, -3)] }
        demoGw 99).db 1 = 8 := by
  decide

/-- A single-item validation succeeds whenever the product is found and the
stock pre-check passes. -/
theorem validateItems_single (db : DB) (pid : Nat) (q : Int) (p : Product)
    (hp : productQueries.getById db pid = some p) (hq : ¬ p.stock < q) :
    validateItems db [(pid, q)]
      = some ([{ product_id := p.id, quantity := q,
                 price_per_item := p.price_usd,
                 total_price := p.price_usd * q }], p.price_usd * q + 0) := by
  simp [validateItems, hp, hq]

/-- C10 amended: a request whose item has zero or negative quantity for an
existing active product with non-negative stock is not rejected: the route
answers 201, persists the order-item row with that quantity (and the
snapshotted line total `price * quantity`, which is ≤ 0), and runs the
conditional stock update with the non-positive quantity — `stock - q`, which
never decreases the stock. -/
theorem c10_nonpositive_quantity_persists (db : DB) (tid pid : Nat) (q : Int)
    (gw : PlisioInvoiceResponse) (expiresAt : Nat) (user : User) (p : Product)
    (htid : (tid == 0) = false)
    (huser : userQueries.findByTelegramId db tid = some user)
    (hp : productQueries.getById db pid = some p)
    (hq : q ≤ 0) (hstock : 0 ≤ p.stock) :
    (createOrderRoute db { telegram_id := tid, items := [(pid, q)] }
        gw expiresAt).httpStatus = 201 ∧
    (createOrderRoute db { telegram_id := tid, items := [(pid, q)] }
        gw expiresAt).db.order_items
      = db.order_items ++
        [{ order_id := db.next_order_id, product_id := p.id, quantity := q,
           price_per_item := p.price_usd, total_price := p.price_usd * q }] ∧
    (createOrderRoute db { telegram_id := tid, items := [(pid, q)] }
        gw expiresAt).db.products
      = updateStockList db.products p.id q := by
  have hlt : ¬ p.stock < q := not_lt.mpr (le_trans hq hstock)
  have hval := validateItems_single db pid q p hp hlt
  have hrun := createOrder_success_run db
    { telegram_id := tid, items := [(pid, q)] } gw expiresAt user
    [{ product_id := p.id, quantity := q, price_per_item := p.price_usd,
       total_price := p.price_usd * q }] (p.price_usd * q + 0)
    htid rfl huser hval
  rw [hrun]
  exact ⟨rfl, rfl, rfl⟩

/-- C10 witness: the hypotheses of `c10_nonpositive_quantity_persists` hold
for the quantity -3 request on the fresh database and the theorem applies
there. -/
theorem c10_witness :
    (((111 : Nat) == 0) = false) ∧
    userQueries.findByTelegramId freshDb 111 = some demoUser ∧
    productQueries.getById freshDb 1 = some demoProduct ∧
    ((-3 : Int) ≤ 0) ∧
    (0 ≤ demoProduct.stock) ∧
    ((createOrderRoute freshDb { telegram_id := 111, items := [(1, -3)] }
        demoGw 99).httpStatus = 201 ∧
     (createOrderRoute freshDb { telegram_id := 111, items := [(1, -3)] }
        demoGw 99).db.order_items
       = freshDb.order_items ++
         [{ order_id := freshDb.next_order_id, product_id := demoProduct.id,
            quantity := -3, price_per_item := demoProduct.price_usd,
            total_price := demoProduct.price_usd * -3 }] ∧
     (createOrderRoute freshDb { telegram_id := 111, items := [(1, -3)] }
        demoGw 99).db.products
       = updateStockList freshDb.products demoProduct.id (-3)) :=
  ⟨by decide, by decide, by decide, by decide, by decide,
   c10_nonpositive_quantity_persists freshDb 111 1 (-3) demoGw 99 demoUser
     demoProduct (by decide) (by decide) (by decide) (by decide) (by decide)⟩

end TelegramStore
